import Mathlib

/-
  Shallow embedding of `website_traffic_analyzer.py` (class WebsiteTrafficAnalyzer)
  and the theorems settling the frozen claims about it.

  Modelling conventions:
  * numpy's global pseudorandom generator is modelled as an abstract draw
    oracle: an `Entropy` function mapping (seed, draw index) to the raw value
    of that draw, plus a counter.  Each numpy sampling primitive consumes one
    raw draw.  The distributional shape of a sampler is not modelled — only
    its support, its determinism, and the threading of the generator state,
    which is all the claims depend on.
  * `datetime` values are modelled as seconds counted from an epoch whose
    day 0 is a Thursday (so `weekday t = (t / 86400 + 3) % 7`, Monday = 0,
    matching Python's `weekday()`).  `strftime('%Y%m%d')` is modelled by the
    (equally injective) decimal day index.
  * A pandas DataFrame is a `List Record`; a missing `day_of_week` column is
    `none` in every row.  Real-valued arithmetic is modelled over `ℚ`.
  * Fallible operations (`np.random.choice` on a possibly-empty list,
    indexing `viewed_pages[-1]`) return `Option`; `none` models the Python
    exception.
-/

namespace WebTraffic

set_option maxRecDepth 200000

/-- Abstract entropy oracle standing for numpy's pseudorandom algorithm:
given a seed and a draw index, it yields the raw value of that draw. -/
def Entropy : Type := Nat → Nat → Nat

/-- State of the global numpy random generator: the post-seed raw-draw
stream together with the index of the next draw to consume. -/
structure Rng where
  stream : Nat → Nat
  ctr : Nat

/-- Consume one raw draw and advance the generator. -/
def Rng.next (s : Rng) : Nat × Rng := (s.stream s.ctr, ⟨s.stream, s.ctr + 1⟩)

/-- Model of `np.random.seed(n)`: reset the global generator to the state
determined by the seed alone. -/
def np_seed (e : Entropy) (seed : Nat) : Rng := ⟨e seed, 0⟩

/-- Model of `int(np.random.poisson(lam))`: one draw; support is all of ℕ. -/
def np_poisson (_lam : ℚ) (s : Rng) : Nat × Rng := s.next

/-- Model of `int(np.random.gamma(shape, scale))`: one draw; the truncated
Gamma variate has support ℕ. -/
def np_gamma (_shape _scale : ℚ) (s : Rng) : Nat × Rng := s.next

/-- Model of `np.random.random()`: one draw mapped into the unit interval,
which is represented in fixed point as millionths (so a comparison
`np.random.random() < 0.4` of the source is modelled as `u < 400000`). -/
def np_random (s : Rng) : Nat × Rng :=
  let ds := s.next
  (ds.1 % 1000000, ds.2)

/-- Model of `np.random.randint(lo, hi)` (`hi` exclusive). -/
def np_randint (lo hi : Nat) (s : Rng) : Nat × Rng :=
  let ds := s.next
  (lo + ds.1 % (hi - lo), ds.2)

/-- Model of uniform `np.random.choice(xs)`: `none` models the exception the
sampler raises on an empty candidate list. -/
def np_choice {α : Type} (xs : List α) (s : Rng) : Option (α × Rng) :=
  let ds := s.next
  match xs with
  | [] => none
  | y :: ys => some ((y :: ys).getD (ds.1 % (ys.length + 1)) y, ds.2)

/-- Inverse-cdf selection for a weighted categorical draw: pick the first
element whose cumulative weight exceeds the uniform variate. -/
def wchoice {α : Type} : List α → List Nat → Nat → Option α
  | [], _, _ => none
  | [x], _, _ => some x
  | x :: _ :: _, [], _ => some x
  | x :: y :: xs, w :: ws, u =>
    if u < w then some x else wchoice (y :: xs) ws (u - w)

/-- Model of weighted `np.random.choice(xs, p=ws)`: one uniform draw fed to
the inverse cdf; weights are in millionths like the uniform draw. -/
def np_wchoice {α : Type} (xs : List α) (ws : List Nat) (s : Rng) :
    Option (α × Rng) :=
  let us := np_random s
  (wchoice xs ws us.1).map (fun x => (x, us.2))

/-! Fixed parameter tables of the generator (lines 41-62 of the source). -/

/-- Page catalog. -/
def pages : List String :=
  ["/home", "/products", "/about", "/contact", "/blog",
   "/pricing", "/signup", "/login", "/support", "/faq"]

/-- Traffic sources. -/
def sources : List String :=
  ["Google", "Direct", "Facebook", "Twitter", "Email",
   "LinkedIn", "Bing", "Instagram", "Referral", "Other"]

/-- Devices. -/
def devices : List String := ["Desktop", "Mobile", "Tablet"]

/-- Countries. -/
def countries : List String :=
  ["United States", "United Kingdom", "Canada", "Germany",
   "France", "Australia", "India", "Japan", "Brazil", "Mexico"]

/-- Pool of 1000 user identifiers `user_1 .. user_1000`. -/
def user_ids : List String :=
  (List.range 1000).map (fun i => "user_" ++ toString (i + 1))

/-- Source weights of line 88 (`[0.4, 0.2, 0.15, 0.05, 0.05, 0.05, 0.03,
0.03, 0.02, 0.02]`), in millionths. -/
def sourceWeights : List Nat :=
  [400000, 200000, 150000, 50000, 50000, 50000, 30000, 30000, 20000, 20000]

/-- Device weights of line 89 (`[0.55, 0.35, 0.1]`), in millionths. -/
def deviceWeights : List Nat := [550000, 350000, 100000]

/-- Country weights of line 90 (`[0.45, 0.15, 0.1, 0.05, 0.05, 0.05, 0.05,
0.05, 0.03, 0.02]`), in millionths. -/
def countryWeights : List Nat :=
  [450000, 150000, 100000, 50000, 50000, 50000, 50000, 50000, 30000, 20000]

/-- Session-length weights of line 93 (`[0.3, 0.25, 0.2, 0.15, 0.05,
0.05]`), in millionths. -/
def numPagesWeights : List Nat :=
  [300000, 250000, 200000, 150000, 50000, 50000]

/-! Datetime arithmetic over epoch seconds. -/

/-- Calendar-day index of an epoch-seconds instant (`datetime.date()`). -/
def dayIndex (t : Nat) : Nat := t / 86400

/-- Hour-of-day of an epoch-seconds instant (`datetime.hour`). -/
def hourOf (t : Nat) : Nat := t % 86400 / 3600

/-- Python `weekday()`: Monday = 0; epoch day 0 is a Thursday. -/
def weekday (t : Nat) : Nat := (t / 86400 + 3) % 7

/-- Weekday names in Python's `day_name()` spelling. -/
def weekNames : List String :=
  ["Monday", "Tuesday", "Wednesday", "Thursday", "Friday", "Saturday", "Sunday"]

/-- Model of `timestamp.dt.day_name()`. -/
def dayName (t : Nat) : String := weekNames.getD (weekday t) "Monday"

/-- Model of `date.replace(hour=h, minute=m)`: keeps the second (and below)
component of the instant, as Python's `replace` does. -/
def replaceHourMinute (t h m : Nat) : Nat :=
  (t / 86400) * 86400 + h * 3600 + m * 60 + t % 60

/-- One row of the event table (one page view), lines 133-146.  The
`day_of_week` field models the column appended later by a report; it is
`none` in every generated row. -/
structure Record where
  timestamp : Nat
  date : Nat
  hour : Nat
  user_id : String
  session_id : String
  page : String
  time_on_page : Nat
  source : String
  device : String
  country : String
  is_bounce : Bool
  converted : Bool
  day_of_week : Option String := none
deriving DecidableEq, Repr

/-- The event table. -/
abbrev Table : Type := List Record

/-- Candidate list for a non-first page draw, line 117 of the source:
`[p for p in pages if p not in viewed_pages][:5] if viewed_pages else pages`. -/
def next_page_candidates (viewed : List String) : List String :=
  if viewed = [] then pages
  else (pages.filter (fun p => ¬ p ∈ viewed)).take 5

/-- Choice of a non-first page (lines 111-117).  `viewed` holds the pages
already viewed; its last element is `viewed_pages[-1]`.  `none` models the
index error on an empty `viewed_pages` (unreachable in the source). -/
def next_page (viewed : List String) (s : Rng) : Option (String × Rng) :=
  match viewed.getLast? with
  | none => none
  | some prev =>
    if prev = "/products" then
      let us := np_random s
      if us.1 < 400000 then some ("/signup", us.2)
      else np_choice (next_page_candidates viewed) us.2
    else if prev = "/pricing" then
      let us := np_random s
      if us.1 < 300000 then some ("/signup", us.2)
      else np_choice (next_page_candidates viewed) us.2
    else np_choice (next_page_candidates viewed) s

/-- Time-on-page draw (lines 121-125): drawn from the Gamma sampler unless
this is the session's last page, which is fixed at 0 without a draw. -/
def time_draw (remaining : Nat) (s : Rng) : Nat × Rng :=
  if remaining > 0 then np_gamma 2 30 s else (0, s)

/-- Conversion check (lines 127-129): the 20% coin is flipped only on a
`/signup` view (Python's `and` short-circuits), and the flag is sticky. -/
def conv_update (page : String) (conv : Bool) (s : Rng) : Bool × Rng :=
  if page = "/signup" then
    let us := np_random s
    (conv || decide (us.1 < 200000), us.2)
  else (conv, s)

/-- The per-page loop of one session (lines 107-146).  `remaining` pages are
still to be produced, `i` is the current page index, `viewed` the pages
already viewed, `conv` the running conversion flag.  Returns the session's
records in order together with the final generator state. -/
def session_pages (firstPage uid sid src dev ctry : String) (isB : Bool)
    (sessionStart : Nat) :
    Nat → Nat → List String → Bool → Rng → Option (List Record × Rng)
  | 0, _, _, _, s => some ([], s)
  | remaining + 1, i, viewed, conv, s =>
    (if i = 0 then some (firstPage, s) else next_page viewed s).bind
      (fun ps =>
        let page := ps.1
        let viewed' := viewed ++ [page]
        let ts1 := time_draw remaining ps.2
        let cs := conv_update page conv ts1.2
        let timestamp := sessionStart + i * 120
        let row : Record :=
          { timestamp := timestamp
            date := dayIndex timestamp
            hour := hourOf timestamp
            user_id := uid
            session_id := sid
            page := page
            time_on_page := ts1.1
            source := src
            device := dev
            country := ctry
            is_bounce := isB
            converted := cs.1 }
        (session_pages firstPage uid sid src dev ctry isB sessionStart
            remaining (i + 1) viewed' cs.1 cs.2).map
          (fun rs => (row :: rs.1, rs.2)))

/-- Entry-page draw (lines 96-100), with Python's short-circuit on the
source test: the 70% coin is flipped only for non-Direct traffic. -/
def first_page_draw (source : String) (s : Rng) : Option (String × Rng) :=
  if source ≠ "Direct" then
    let us := np_random s
    if us.1 < 700000 then some ("/home", us.2) else np_choice pages us.2
  else np_choice pages s

/-- One visit / session (lines 84-146).  `date` is the day's datetime in
epoch seconds (it carries the generation instant's time of day), `hour` the
hour slot.  Returns the session's records and the final generator state. -/
def make_visit (date hour : Nat) (s : Rng) : Option (List Record × Rng) :=
  (np_choice user_ids s).bind (fun us =>
  let uid := us.1
  let sn := np_randint 1000 9999 us.2
  let sid := "session_" ++ toString (date / 86400) ++ "_" ++ toString hour
      ++ "_" ++ toString sn.1
  let mn := np_randint 0 60 sn.2
  let sessionStart := replaceHourMinute date hour mn.1
  (np_wchoice sources sourceWeights mn.2).bind (fun srcs =>
  let src := srcs.1
  (np_wchoice devices deviceWeights srcs.2).bind (fun devs =>
  (np_wchoice countries countryWeights devs.2).bind (fun ctrys =>
  (np_wchoice [1, 2, 3, 4, 5, 6] numPagesWeights ctrys.2).bind (fun nps =>
  let numPages := nps.1
  let isB : Bool := decide (numPages = 1)
  (first_page_draw src nps.2).bind (fun fps =>
  (session_pages fps.1 uid sid src devs.1 ctrys.1 isB sessionStart
      numPages 0 [] false fps.2)))))))

/-- The inner visit loop of one hour slot (line 83): `numVisits` sessions. -/
def do_visits (date hour : Nat) : Nat → Rng → Option (List Record × Rng)
  | 0, s => some ([], s)
  | n + 1, s =>
    (make_visit date hour s).bind (fun vs =>
      (do_visits date hour n vs.2).map (fun rs => (vs.1 ++ rs.1, rs.2)))

/-- Expected-visit multiplier of one hour slot (lines 67-78). -/
def visitsFactor (date hour : Nat) : ℚ :=
  let base : ℚ :=
    if 9 ≤ hour ∧ hour ≤ 17 then 3/2
    else if 18 ≤ hour ∧ hour ≤ 22 then 6/5
    else 1/2
  if 5 ≤ weekday date then base * (7/10) else base

/-- The hour loop of one day (lines 67-81): for each hour slot draw the visit
count from the Poisson sampler and generate that many visits. -/
def hour_loop (date : Nat) : List Nat → Rng → Option (List Record × Rng)
  | [], s => some ([], s)
  | h :: hs, s =>
    let nv := np_poisson (20 * visitsFactor date h) s
    (do_visits date h nv.1 nv.2).bind (fun vs =>
      (hour_loop date hs vs.2).map (fun rs => (vs.1 ++ rs.1, rs.2)))

/-- The day loop (line 65). -/
def day_loop : List Nat → Rng → Option (List Record × Rng)
  | [], s => some ([], s)
  | d :: ds, s =>
    (hour_loop d (List.range 24) s).bind (fun vs =>
      (day_loop ds vs.2).map (fun rs => (vs.1 ++ rs.1, rs.2)))

/-- Model of `generate_sample_data(days)` (lines 25-154).  `now` is the
instant `datetime.now()` returns, in epoch seconds; `s` is the state of the
global numpy generator before the call, which line 30 (`np.random.seed(42)`)
immediately overwrites.  Returns the generated table (`none` models an
uncaught exception, shown below to be impossible). -/
def generate_sample_data (e : Entropy) (now days : Nat) (_s : Rng) :
    Option Table :=
  let s := np_seed e 42
  let startDate := now - days * 86400
  let dateRange := (List.range days).map (fun i => startDate + i * 86400)
  (day_loop dateRange s).map Prod.fst

/-! The reporting side.  The analyzer object holds `self.data`, a DataFrame
or `None`; print-formatted summary output is out of the spec's scope, but the
user-facing "no data" notice each report emits is modelled as an
`Option String` component of the result. -/

/-- The analyzer object: `self.data` is `none` until data is loaded or
generated. -/
structure Analyzer where
  data : Option Table
deriving DecidableEq

/-- The no-data notice printed by every report (lines 167, 219, 262, 322). -/
def noDataMsg : String := "No data available. Please load or generate data first."

/-- Model of `load_data` (lines 15-23).  Reading the CSV is an external
effect; its outcome is passed in as `readResult`.  On success the table is
stored and `True` returned; on any exception the error is reported by
returning `False` and the handler leaves `self.data` untouched. -/
def load_data (st : Analyzer) (readResult : Except String Table) :
    Bool × Analyzer :=
  match readResult with
  | .ok t => (true, { st with data := some t })
  | .error _ => (false, st)

/-- Distinct session ids in first-occurrence order (`nunique` / `groupby`
keys of the `session_id` column). -/
def session_ids (t : Table) : List String := (t.map (·.session_id)).dedup

/-- Worker of `drop_dup_sessions`: keep rows whose session id has not been
seen yet. -/
def drop_dup_go (seen : List String) : Table → Table
  | [] => []
  | r :: rs =>
    if r.session_id ∈ seen then drop_dup_go seen rs
    else r :: drop_dup_go (r.session_id :: seen) rs

/-- Model of `drop_duplicates('session_id')`: keep the first row of each
session. -/
def drop_dup_sessions : Table → Table := drop_dup_go []

/-- The eight summary values of `basic_metrics` (lines 205-214). -/
structure Metrics where
  total_pageviews : Nat
  unique_visitors : Nat
  unique_sessions : Nat
  pages_per_session : ℚ
  sessions_per_visitor : ℚ
  bounce_rate : ℚ
  conversion_rate : ℚ
  avg_session_duration : ℚ
deriving DecidableEq

/-- The computations of `basic_metrics` on a populated table
(lines 173-193), with real arithmetic over ℚ. -/
def compute_basic_metrics (t : Table) : Metrics :=
  let total_pageviews := t.length
  let unique_visitors := (t.map (·.user_id)).dedup.length
  let unique_sessions := (session_ids t).length
  let bounce_sessions := ((drop_dup_sessions t).filter (·.is_bounce)).length
  let converted_sessions :=
    ((session_ids t).filter
      (fun sid => (t.filter (fun r => r.session_id = sid)).any (·.converted))).length
  let session_durations :=
    (session_ids t).map
      (fun sid => ((t.filter (fun r => r.session_id = sid)).map (·.time_on_page)).sum)
  { total_pageviews := total_pageviews
    unique_visitors := unique_visitors
    unique_sessions := unique_sessions
    pages_per_session := (total_pageviews : ℚ) / (unique_sessions : ℚ)
    sessions_per_visitor := (unique_sessions : ℚ) / (unique_visitors : ℚ)
    bounce_rate := (bounce_sessions : ℚ) / (unique_sessions : ℚ) * 100
    conversion_rate := (converted_sessions : ℚ) / (unique_sessions : ℚ) * 100
    avg_session_duration :=
      ((session_durations.sum : ℚ)) / (session_durations.length : ℚ) }

/-- Model of `basic_metrics` (lines 164-214): returns the (unchanged)
analyzer, the notice emitted, and the summary value returned. -/
def basic_metrics (st : Analyzer) : Analyzer × Option String × Option Metrics :=
  match st.data with
  | none => (st, some noDataMsg, none)
  | some t => (st, none, some (compute_basic_metrics t))

/-- Add the derived `day_of_week` column to one row (line 248). -/
def add_day_of_week (r : Record) : Record :=
  { r with day_of_week := some (dayName r.timestamp) }

/-- Model of `traffic_over_time` (lines 216-257): the chart series is a list
of (label, distinct-session count) pairs; the `day_of_week` variant first
stores the table extended with the derived column back into `self.data`.
Series label order (a chart concern) is modelled by first-occurrence order
rather than pandas' sorted group keys. -/
def traffic_over_time (st : Analyzer) (time_unit : String) :
    Analyzer × Option String × Option (List (String × Nat)) :=
  match st.data with
  | none => (st, some noDataMsg, none)
  | some t =>
    if time_unit = "day" then
      (st, none, some ((t.map (·.date)).dedup.map
        (fun d => (toString d, (session_ids (t.filter (fun r => r.date = d))).length))))
    else if time_unit = "hour" then
      (st, none, some ((t.map (·.hour)).dedup.map
        (fun h => (toString h, (session_ids (t.filter (fun r => r.hour = h))).length))))
    else if time_unit = "day_of_week" then
      let t' := t.map add_day_of_week
      (⟨some t'⟩, none, some (weekNames.map
        (fun d => (d, (session_ids (t'.filter (fun r => r.day_of_week = some d))).length))))
    else (st, none, none)

/-- Insert one source row into a list sorted by descending session count. -/
def insertByCount (x : String × Nat × ℚ × ℚ) :
    List (String × Nat × ℚ × ℚ) → List (String × Nat × ℚ × ℚ)
  | [] => [x]
  | y :: ys => if y.2.1 < x.2.1 then x :: y :: ys else y :: insertByCount x ys

/-- Sort source rows by descending session count (`sort_values` of line 314). -/
def sortByCountDesc (l : List (String × Nat × ℚ × ℚ)) :
    List (String × Nat × ℚ × ℚ) :=
  l.foldr insertByCount []

/-- The per-source summary of `analyze_traffic_sources` (lines 266-314):
session count, bounce rate and conversion rate per source, one row per
session, sorted by descending session count. -/
def source_summary (t : Table) : List (String × Nat × ℚ × ℚ) :=
  let dd := drop_dup_sessions t
  let srcs := (dd.map (·.source)).dedup
  sortByCountDesc (srcs.map (fun src =>
    let ss := dd.filter (fun r => r.source = src)
    (src, ss.length,
      ((ss.filter (·.is_bounce)).length : ℚ) / (ss.length : ℚ) * 100,
      ((ss.filter (·.converted)).length : ℚ) / (ss.length : ℚ) * 100)))

/-- Model of `analyze_traffic_sources` (lines 259-317). -/
def analyze_traffic_sources (st : Analyzer) :
    Analyzer × Option String × Option (List (String × Nat × ℚ × ℚ)) :=
  match st.data with
  | none => (st, some noDataMsg, none)
  | some t => (st, none, some (source_summary t))

/-- Step of the selection `groupby('session_id').last()` performs after
`sort_values(['session_id', 'timestamp'])`: keep the row of maximal
timestamp, a later occurrence winning ties (the tie order of the unstable
sort is immaterial to every claim). -/
def pick_later (acc : Option Record) (r : Record) : Option Record :=
  match acc with
  | none => some r
  | some b => if b.timestamp ≤ r.timestamp then some r else some b

/-- Fold selecting the session's chronologically last row. -/
def pick_last (l : List Record) : Option Record := l.foldl pick_later none

/-- The exit row of each session (lines 333-334), one per distinct session. -/
def last_rows (t : Table) : List Record :=
  (session_ids t).filterMap (fun sid => pick_last (t.filter (fun r => r.session_id = sid)))

/-- Pageview count of one page (`value_counts` of line 326). -/
def page_views (t : Table) (p : String) : Nat :=
  (t.filter (fun r => r.page = p)).length

/-- Exit count of one page (`value_counts` of line 335). -/
def exit_count (t : Table) (p : String) : Nat :=
  ((last_rows t).filter (fun r => r.page = p)).length

/-- Index of the exit-rate DataFrame (line 338): pages with a pageview count
joined with pages with an exit count. -/
def page_index (t : Table) : List String :=
  (t.map (·.page) ++ (last_rows t).map (·.page)).dedup

/-- Rounding to two decimals (`round(2)` of line 342); Python's
round-half-to-even differs only at exact half-cent values, which no claim
depends on. -/
def round2 (q : ℚ) : ℚ := ((⌊q * 100 + 1/2⌋ : ℤ) : ℚ) / 100

/-- The exit-rate column of line 342: per page of the index,
`Exits / Pageviews * 100` rounded to two decimals. -/
def exit_rates_table (t : Table) : List (String × ℚ) :=
  (page_index t).map
    (fun p => (p, round2 ((exit_count t p : ℚ) / (page_views t p : ℚ) * 100)))

/-- Model of `popular_pages` (lines 319 onward): the reported value is the
exit-rate table (the source text is cut off mid-function after the chart
calls; only the guard and the computations above it decide any claim). -/
def popular_pages (st : Analyzer) :
    Analyzer × Option String × Option (List (String × ℚ)) :=
  match st.data with
  | none => (st, some noDataMsg, none)
  | some t => (st, none, some (exit_rates_table t))

/-! Decidable forms of the claimed table invariants, and concrete inputs
used by counterexamples and witnesses. -/

/-- The invariant claimed of every generated table: rows sharing a
`session_id` agree on `user_id`, `source`, `device`, `country` and
`is_bounce`, and `is_bounce` holds exactly on the single-row sessions. -/
def sessionsConsistent (t : Table) : Bool :=
  (session_ids t).all (fun sid =>
    let rs := t.filter (fun r => r.session_id = sid)
    (match rs with
     | [] => true
     | r :: _ =>
       rs.all (fun x =>
         x.user_id == r.user_id && x.source == r.source &&
         x.device == r.device && x.country == r.country &&
         x.is_bounce == r.is_bounce)) &&
    rs.all (fun x => x.is_bounce == decide (rs.length = 1)))

/-- The claimed conversion invariant: within the rows of each `session_id`,
if any row is converted then all are. -/
def conversionBackfilled (t : Table) : Bool :=
  (session_ids t).all (fun sid =>
    let rs := t.filter (fun r => r.session_id = sid)
    !(rs.any (·.converted)) || rs.all (·.converted))

/-- Candidate set for the next-page draw as the claim words it: uniform over
exactly the catalog pages not yet viewed, falling back to the full catalog
only when all pages have been viewed.  Modelled from the spec, for
comparison with `next_page_candidates` from the source. -/
def next_page_candidates_claim (viewed : List String) : List String :=
  if pages.all (fun p => p ∈ viewed) then pages
  else pages.filter (fun p => ¬ p ∈ viewed)

/-- Candidate set for the next-page draw as amended: the first five catalog
pages (in catalog order) not yet viewed; no fallback is needed while some
page has been viewed and at most five have. -/
def next_page_candidates_amended (viewed : List String) : List String :=
  (pages.filter (fun p => ¬ p ∈ viewed)).take 5

/-- Next-page choice as amended: the `/products` and `/pricing` coin flips
as claimed, otherwise a uniform draw over the truncated unviewed candidate
list. -/
def next_page_amended (viewed : List String) (s : Rng) :
    Option (String × Rng) :=
  match viewed.getLast? with
  | none => none
  | some prev =>
    if prev = "/products" then
      let us := np_random s
      if us.1 < 400000 then some ("/signup", us.2)
      else np_choice (next_page_candidates_amended viewed) us.2
    else if prev = "/pricing" then
      let us := np_random s
      if us.1 < 300000 then some ("/signup", us.2)
      else np_choice (next_page_candidates_amended viewed) us.2
    else np_choice (next_page_candidates_amended viewed) s

/-- An entropy stream under which the seeded generator produces, in hour 0
of the single generated day, two sessions that collide on the random
session-id suffix while drawing different users. -/
def entropyCollide : Entropy :=
  fun _ k => if k = 0 then 2 else if k = 9 then 1 else 0

/-- An entropy stream under which the seeded generator produces one
two-page session `/products → /signup` whose conversion coin succeeds on
the second page only. -/
def entropyConvert : Entropy :=
  fun _ k =>
    if k = 0 then 1 else if k = 4 then 500000
    else if k = 7 then 400000 else if k = 8 then 1 else 0

/-- The all-zero entropy stream. -/
def entropyZero : Entropy := fun _ _ => 0

/-- An arbitrary pre-call state of the global generator. -/
def rng0 : Rng := ⟨fun _ => 0, 0⟩

/-- A generation instant: 2024-10-04 00:00:00 UTC in epoch seconds. -/
def now0 : Nat := 1728000000

/-- A three-row demonstration table: one bounce session and one two-page
session that converts on its second page. -/
def demoRow1 : Record :=
  { timestamp := 100, date := 0, hour := 0, user_id := "u1",
    session_id := "s1", page := "/home", time_on_page := 0,
    source := "Google", device := "Desktop", country := "United States",
    is_bounce := true, converted := false }

/-- Second demonstration row: first page of session `s2`. -/
def demoRow2 : Record :=
  { timestamp := 200, date := 0, hour := 0, user_id := "u2",
    session_id := "s2", page := "/home", time_on_page := 30,
    source := "Direct", device := "Mobile", country := "Canada",
    is_bounce := false, converted := false }

/-- Third demonstration row: second page of session `s2`, converted. -/
def demoRow3 : Record :=
  { timestamp := 320, date := 0, hour := 0, user_id := "u2",
    session_id := "s2", page := "/signup", time_on_page := 0,
    source := "Direct", device := "Mobile", country := "Canada",
    is_bounce := false, converted := true }

/-- The demonstration table. -/
def demoTable : Table := [demoRow1, demoRow2, demoRow3]

/-! General list helper lemmas. -/

/-- A duplicate-free list is no longer than any list containing it. -/
theorem nodup_length_le {α : Type} {l₁ l₂ : List α}
    (d : l₁.Nodup) (h : l₁ ⊆ l₂) : l₁.length ≤ l₂.length :=
  (List.subperm_of_subset d h).length_le

/-- Positional lookup with a default yields a member or the default. -/
theorem getD_mem_or {α : Type} :
    ∀ (l : List α) (n : Nat) (d : α), l.getD n d ∈ l ∨ l.getD n d = d
  | [], _, _ => Or.inr rfl
  | a :: _, 0, _ => Or.inl (by simp)
  | a :: l, n + 1, d => by
    rcases getD_mem_or l n d with h | h
    · exact Or.inl (by simp [List.getD_cons_succ]; exact Or.inr (by simpa using h))
    · exact Or.inr (by simp [List.getD_cons_succ]; simpa using h)

/-! Lemmas about the sampling primitives. -/

/-- Weighted selection on a non-empty candidate list always succeeds. -/
theorem wchoice_isSome {α : Type} :
    ∀ (xs : List α) (ws : List Nat) (u : Nat), xs ≠ [] →
      (wchoice xs ws u).isSome = true
  | [], _, _, h => absurd rfl h
  | [_], _, _, _ => by simp [wchoice]
  | _ :: _ :: _, [], _, _ => by simp [wchoice]
  | x :: y :: xs, w :: ws, u, _ => by
    simp only [wchoice]
    split
    · rfl
    · exact wchoice_isSome (y :: xs) ws (u - w) (by simp)

/-- Weighted selection picks an element of the candidate list. -/
theorem wchoice_mem {α : Type} :
    ∀ (xs : List α) (ws : List Nat) (u : Nat) (x : α),
      wchoice xs ws u = some x → x ∈ xs
  | [], _, _, _, h => by simp [wchoice] at h
  | [y], ws, u, x, h => by
    simp [wchoice] at h
    simp [h]
  | y :: z :: xs, [], u, x, h => by
    simp [wchoice] at h
    simp [h]
  | y :: z :: xs, w :: ws, u, x, h => by
    simp only [wchoice] at h
    split at h
    · simp at h
      simp [h]
    · have := wchoice_mem (z :: xs) ws (u - w) x h
      exact List.mem_cons_of_mem y this

/-- Uniform selection on a non-empty candidate list always succeeds. -/
theorem np_choice_isSome {α : Type} (xs : List α) (s : Rng) (h : xs ≠ []) :
    (np_choice xs s).isSome = true := by
  cases xs with
  | nil => exact absurd rfl h
  | cons y ys => simp [np_choice]

/-- Uniform selection picks an element of the candidate list. -/
theorem np_choice_mem {α : Type} (xs : List α) (s : Rng) (x : α) (s' : Rng)
    (h : np_choice xs s = some (x, s')) : x ∈ xs := by
  cases xs with
  | nil => simp [np_choice] at h
  | cons y ys =>
    simp only [np_choice, Option.some.injEq, Prod.mk.injEq] at h
    rcases getD_mem_or (y :: ys) (s.next.1 % (ys.length + 1)) y with hm | hd
    · exact h.1 ▸ hm
    · rw [← h.1, hd]; exact List.mem_cons_self y ys

/-- Weighted numpy choice on a non-empty candidate list always succeeds. -/
theorem np_wchoice_isSome {α : Type} (xs : List α) (ws : List Nat) (s : Rng)
    (h : xs ≠ []) : (np_wchoice xs ws s).isSome = true := by
  have h2 := wchoice_isSome xs ws (np_random s).1 h
  simp only [np_wchoice]
  cases hw : wchoice xs ws (np_random s).1 with
  | none => rw [hw] at h2; simp at h2
  | some x => simp [hw]

/-- Weighted numpy choice picks an element of the candidate list. -/
theorem np_wchoice_mem {α : Type} (xs : List α) (ws : List Nat) (s : Rng)
    (x : α) (s' : Rng) (h : np_wchoice xs ws s = some (x, s')) : x ∈ xs := by
  simp only [np_wchoice, Option.map_eq_some'] at h
  obtain ⟨y, hy, hxy⟩ := h
  cases hxy
  exact wchoice_mem xs ws (np_random s).1 x hy

/-! Lemmas about the next-page candidate list and the page loop. -/

/-- The page catalog has no duplicates. -/
theorem pages_nodup : pages.Nodup := by decide

/-- The catalog pages already viewed are no more numerous than the viewed
list. -/
theorem filter_viewed_le (viewed : List String) :
    (pages.filter (fun p => p ∈ viewed)).length ≤ viewed.length := by
  apply nodup_length_le (List.Nodup.filter _ pages_nodup)
  intro x hx
  simpa using (List.mem_filter.mp hx).2

/-- At least `10 - viewed.length` catalog pages are unviewed. -/
theorem filter_unviewed_ge (viewed : List String) :
    pages.length - viewed.length ≤
      (pages.filter (fun p => ¬ p ∈ viewed)).length := by
  have h := List.length_eq_length_filter_add (l := pages)
    (fun p => decide (p ∈ viewed))
  have hle := filter_viewed_le viewed
  have heq : pages.filter (fun p => !decide (p ∈ viewed)) =
      pages.filter (fun p => ¬ p ∈ viewed) := by
    simp only [decide_not]
  rw [heq] at h
  omega

/-- With at least one and at most five pages viewed, the source's truncated
candidate list has exactly five entries. -/
theorem candidates_length (viewed : List String) (h1 : viewed ≠ [])
    (h2 : viewed.length ≤ 5) : (next_page_candidates viewed).length = 5 := by
  have hge := filter_unviewed_ge viewed
  have hp : pages.length = 10 := rfl
  simp only [next_page_candidates, if_neg h1]
  rw [List.length_take]
  omega

/-- With at least one and at most five pages viewed, the next-page draw
always succeeds. -/
theorem next_page_isSome (viewed : List String) (s : Rng) (h1 : viewed ≠ [])
    (h2 : viewed.length ≤ 5) : (next_page viewed s).isSome = true := by
  have hc : next_page_candidates viewed ≠ [] := by
    intro hnil
    have := candidates_length viewed h1 h2
    rw [hnil] at this
    simp at this
  have hne : viewed.getLast? ≠ none := fun hn =>
    h1 (List.getLast?_eq_none_iff.mp hn)
  obtain ⟨prev, hl⟩ := Option.ne_none_iff_exists'.mp hne
  simp only [next_page, hl]
  repeat' split
  all_goals first | rfl | exact np_choice_isSome _ _ hc

/-- Mapping preserves definedness of an optional value. -/
theorem isSome_map {α β : Type} (f : α → β) (o : Option α) :
    (o.map f).isSome = o.isSome := by cases o <;> rfl

/-- The conversion flag is sticky: once set it survives every update. -/
theorem conv_update_mono (page : String) (conv : Bool) (s : Rng)
    (h : conv = true) : (conv_update page conv s).1 = true := by
  subst h
  unfold conv_update
  split
  · simp
  · rfl

/-- The entry-page draw always succeeds. -/
theorem first_page_draw_isSome (source : String) (s : Rng) :
    (first_page_draw source s).isSome = true := by
  simp only [first_page_draw]
  repeat' split
  all_goals rfl

/-- With the loop invariant `viewed.length = i` and a session length of at
most six pages, the page loop always succeeds. -/
theorem session_pages_isSome (fp uid sid src dev ctry : String) (isB : Bool)
    (st : Nat) :
    ∀ (remaining i : Nat) (viewed : List String) (conv : Bool) (s : Rng),
      viewed.length = i → i + remaining ≤ 6 →
      (session_pages fp uid sid src dev ctry isB st remaining i viewed conv
        s).isSome = true
  | 0, _, _, _, _, _, _ => rfl
  | remaining + 1, i, viewed, conv, s, hlen, hle => by
    have hpage : (if i = 0 then some (fp, s) else next_page viewed s).isSome
        = true := by
      split
      · rfl
      · next hi =>
        apply next_page_isSome
        · intro hnil
          apply hi
          rw [← hlen, hnil]
          rfl
        · omega
    obtain ⟨⟨page, s1⟩, hps⟩ := Option.isSome_iff_exists.mp hpage
    simp only [session_pages, hps, Option.some_bind]
    rw [isSome_map]
    exact session_pages_isSome fp uid sid src dev ctry isB st remaining
      (i + 1) (viewed ++ [page]) _ _ (by simp [hlen]) (by omega)

/-- Every record the page loop emits carries the session's fixed user,
session id, source, device, country and bounce flag. -/
theorem session_pages_fields (fp uid sid src dev ctry : String) (isB : Bool)
    (st : Nat) :
    ∀ (remaining i : Nat) (viewed : List String) (conv : Bool) (s : Rng)
      (block : List Record) (s' : Rng),
      session_pages fp uid sid src dev ctry isB st remaining i viewed conv s
        = some (block, s') →
      ∀ r ∈ block, r.user_id = uid ∧ r.session_id = sid ∧ r.source = src ∧
        r.device = dev ∧ r.country = ctry ∧ r.is_bounce = isB
  | 0, i, viewed, conv, s, block, s', h => by
    simp only [session_pages, Option.some.injEq, Prod.mk.injEq] at h
    rw [← h.1]
    intro r hr
    simp at hr
  | remaining + 1, i, viewed, conv, s, block, s', h => by
    simp only [session_pages, Option.bind_eq_some, Option.map_eq_some'] at h
    obtain ⟨⟨page, s1⟩, _, ⟨⟨rest, s2⟩, hrec, hblock⟩⟩ := h
    obtain ⟨hb, _⟩ := Prod.mk.injEq .. ▸ hblock
    rw [← hb]
    intro r hr
    rcases List.mem_cons.mp hr with hr | hr
    · subst hr
      exact ⟨rfl, rfl, rfl, rfl, rfl, rfl⟩
    · exact session_pages_fields fp uid sid src dev ctry isB st remaining
        (i + 1) _ _ _ rest s2 hrec r hr

/-- The page loop emits exactly `remaining` records. -/
theorem session_pages_length (fp uid sid src dev ctry : String) (isB : Bool)
    (st : Nat) :
    ∀ (remaining i : Nat) (viewed : List String) (conv : Bool) (s : Rng)
      (block : List Record) (s' : Rng),
      session_pages fp uid sid src dev ctry isB st remaining i viewed conv s
        = some (block, s') →
      block.length = remaining
  | 0, i, viewed, conv, s, block, s', h => by
    simp only [session_pages, Option.some.injEq, Prod.mk.injEq] at h
    rw [← h.1]
    rfl
  | remaining + 1, i, viewed, conv, s, block, s', h => by
    simp only [session_pages, Option.bind_eq_some, Option.map_eq_some'] at h
    obtain ⟨⟨page, s1⟩, _, ⟨⟨rest, s2⟩, hrec, hblock⟩⟩ := h
    obtain ⟨hb, _⟩ := Prod.mk.injEq .. ▸ hblock
    rw [← hb]
    simp only [List.length_cons]
    rw [session_pages_length fp uid sid src dev ctry isB st remaining
      (i + 1) _ _ _ rest s2 hrec]

/-- Within one session the conversion flag never reverts: every record
emitted after a converted record is itself converted, and a block started
with the flag set is entirely converted. -/
theorem session_pages_conv (fp uid sid src dev ctry : String) (isB : Bool)
    (st : Nat) :
    ∀ (remaining i : Nat) (viewed : List String) (conv : Bool) (s : Rng)
      (block : List Record) (s' : Rng),
      session_pages fp uid sid src dev ctry isB st remaining i viewed conv s
        = some (block, s') →
      (∀ r ∈ block, conv = true → r.converted = true) ∧
      block.Pairwise (fun a b => a.converted = true → b.converted = true)
  | 0, i, viewed, conv, s, block, s', h => by
    simp only [session_pages, Option.some.injEq, Prod.mk.injEq] at h
    rw [← h.1]
    exact ⟨by intro r hr; simp at hr, List.Pairwise.nil⟩
  | remaining + 1, i, viewed, conv, s, block, s', h => by
    simp only [session_pages, Option.bind_eq_some, Option.map_eq_some'] at h
    obtain ⟨⟨page, s1⟩, _, ⟨⟨rest, s2⟩, hrec, hblock⟩⟩ := h
    obtain ⟨hb, _⟩ := Prod.mk.injEq .. ▸ hblock
    rw [← hb]
    have ih := session_pages_conv fp uid sid src dev ctry isB st remaining
      (i + 1) _ _ _ rest s2 hrec
    have hmono : conv = true →
        (conv_update page conv (time_draw remaining s1).2).1 = true :=
      conv_update_mono page conv (time_draw remaining s1).2
    constructor
    · intro r hr hcv
      rcases List.mem_cons.mp hr with hr | hr
      · subst hr
        exact hmono hcv
      · exact ih.1 r hr (hmono hcv)
    · refine List.Pairwise.cons (fun b hb hhead => ?_) ih.2
      exact ih.1 b hb hhead

/-- Binding a defined optional value with a continuation that is defined on
the bound result is defined. -/
theorem bind_isSome_mem {α β : Type} (o : Option α) (f : α → Option β)
    (h1 : o.isSome = true) (h2 : ∀ a, o = some a → (f a).isSome = true) :
    (o.bind f).isSome = true := by
  cases o with
  | none => simp at h1
  | some a => simpa using h2 a rfl

/-- The visit generator always succeeds: none of its draws can fail. -/
theorem make_visit_isSome (date hour : Nat) (s : Rng) :
    (make_visit date hour s).isSome = true := by
  have huser : user_ids ≠ [] := by
    simp [user_ids, List.range_eq_nil]
  simp only [make_visit]
  apply bind_isSome_mem _ _ (np_choice_isSome _ _ huser)
  intro us _
  apply bind_isSome_mem _ _ (np_wchoice_isSome _ _ _ (by simp [sources]))
  intro srcs _
  apply bind_isSome_mem _ _ (np_wchoice_isSome _ _ _ (by simp [devices]))
  intro devs _
  apply bind_isSome_mem _ _ (np_wchoice_isSome _ _ _ (by simp [countries]))
  intro ctrys _
  apply bind_isSome_mem _ _ (np_wchoice_isSome _ _ _ (by simp))
  intro nps hnp
  apply bind_isSome_mem _ _ (first_page_draw_isSome _ _)
  intro fps _
  have hmem : nps.1 ∈ [1, 2, 3, 4, 5, 6] :=
    np_wchoice_mem _ _ _ nps.1 nps.2 (by rw [hnp])
  have hle : nps.1 ≤ 6 := by
    simp at hmem
    rcases hmem with h | h | h | h | h | h <;> omega
  exact session_pages_isSome _ _ _ _ _ _ _ _ nps.1 0 [] false fps.2 rfl
    (by omega)

/-- The visit loop of an hour slot always succeeds. -/
theorem do_visits_isSome (date hour : Nat) :
    ∀ (n : Nat) (s : Rng), (do_visits date hour n s).isSome = true
  | 0, _ => rfl
  | n + 1, s => by
    simp only [do_visits]
    apply bind_isSome_mem _ _ (make_visit_isSome date hour s)
    intro vs _
    rw [isSome_map]
    exact do_visits_isSome date hour n vs.2

/-- The hour loop always succeeds. -/
theorem hour_loop_isSome (date : Nat) :
    ∀ (hs : List Nat) (s : Rng), (hour_loop date hs s).isSome = true
  | [], _ => rfl
  | h :: hs, s => by
    simp only [hour_loop]
    apply bind_isSome_mem _ _ (do_visits_isSome date h _ _)
    intro vs _
    rw [isSome_map]
    exact hour_loop_isSome date hs vs.2

/-- The day loop always succeeds. -/
theorem day_loop_isSome :
    ∀ (ds : List Nat) (s : Rng), (day_loop ds s).isSome = true
  | [], _ => rfl
  | d :: ds, s => by
    simp only [day_loop]
    apply bind_isSome_mem _ _ (hour_loop_isSome d _ _)
    intro vs _
    rw [isSome_map]
    exact day_loop_isSome ds vs.2

/-- A successful visit is produced by the page loop run with the visit's
fixed session attributes, with the bounce flag tied to the drawn page
count. -/
theorem make_visit_destruct (date hour : Nat) (s : Rng) (block : List Record)
    (s' : Rng) (h : make_visit date hour s = some (block, s')) :
    ∃ (fp uid sid src dev ctry : String) (numPages st : Nat) (s0 : Rng),
      session_pages fp uid sid src dev ctry (decide (numPages = 1)) st
        numPages 0 [] false s0 = some (block, s') := by
  simp only [make_visit, Option.bind_eq_some] at h
  obtain ⟨us, _, h⟩ := h
  obtain ⟨srcs, _, h⟩ := h
  obtain ⟨devs, _, h⟩ := h
  obtain ⟨ctrys, _, h⟩ := h
  obtain ⟨nps, _, h⟩ := h
  obtain ⟨fps, _, h⟩ := h
  exact ⟨fps.1, us.1, _, srcs.1, devs.1, ctrys.1, nps.1, _, fps.2, h⟩

/-! Lemmas about the exit-rate computation of `popular_pages`. -/

/-- The later-row selection step yields the new row or keeps the old value. -/
theorem pick_later_cases (acc : Option Record) (a r : Record)
    (h : pick_later acc a = some r) : r = a ∨ acc = some r := by
  cases acc with
  | none =>
    simp only [pick_later] at h
    exact Or.inl (Option.some.inj h).symm
  | some b =>
    simp only [pick_later] at h
    by_cases hb : b.timestamp ≤ a.timestamp
    · rw [if_pos hb] at h
      exact Or.inl (Option.some.inj h).symm
    · rw [if_neg hb] at h
      exact Or.inr h

/-- The fold underlying `pick_last` returns a member or its start value. -/
theorem pick_last_aux :
    ∀ (l : List Record) (acc : Option Record) (r : Record),
      l.foldl pick_later acc = some r → r ∈ l ∨ acc = some r
  | [], _, _, h => Or.inr h
  | a :: l, acc, r, h => by
    rcases pick_last_aux l (pick_later acc a) r h with h1 | h1
    · exact Or.inl (List.mem_cons_of_mem a h1)
    · rcases pick_later_cases acc a r h1 with h2 | h2
      · exact Or.inl (h2 ▸ List.mem_cons_self a l)
      · exact Or.inr h2

/-- A selected last row belongs to the list it was selected from. -/
theorem pick_last_mem (l : List Record) (r : Record)
    (h : pick_last l = some r) : r ∈ l := by
  rcases pick_last_aux l none r h with h1 | h1
  · exact h1
  · exact absurd h1 (by simp)

/-- A session's selected exit row lies in the table and carries that
session's id. -/
theorem pick_last_session (t : Table) (sid : String) (r : Record)
    (h : pick_last (t.filter (fun x => x.session_id = sid)) = some r) :
    r ∈ t ∧ r.session_id = sid := by
  have hm := pick_last_mem _ r h
  have := List.mem_filter.mp hm
  exact ⟨this.1, by simpa using this.2⟩

/-- Every exit row lies in the table. -/
theorem last_rows_subset (t : Table) (r : Record) (h : r ∈ last_rows t) :
    r ∈ t := by
  simp only [last_rows, List.mem_filterMap] at h
  obtain ⟨sid, _, hp⟩ := h
  exact (pick_last_session t sid r hp).1

/-- The exit rows are pairwise distinct: they carry distinct session ids. -/
theorem last_rows_nodup (t : Table) : (last_rows t).Nodup := by
  apply List.Nodup.filterMap ?_ (List.nodup_dedup _)
  intro a a' b hb hb'
  have h1 := (pick_last_session t a b (Option.mem_def.mp hb)).2
  have h2 := (pick_last_session t a' b (Option.mem_def.mp hb')).2
  rw [← h1, h2]

/-- A page's exit count never exceeds its pageview count. -/
theorem exit_count_le (t : Table) (p : String) :
    exit_count t p ≤ page_views t p := by
  apply nodup_length_le (List.Nodup.filter _ (last_rows_nodup t))
  intro x hx
  have hm := List.mem_filter.mp hx
  exact List.mem_filter.mpr ⟨last_rows_subset t x hm.1, hm.2⟩

/-- Every page of the exit-rate index has at least one pageview. -/
theorem page_index_views_pos (t : Table) (p : String)
    (h : p ∈ page_index t) : 1 ≤ page_views t p := by
  simp only [page_index, List.mem_dedup, List.mem_append, List.mem_map] at h
  have hex : ∃ r ∈ t, r.page = p := by
    rcases h with ⟨r, hr, hrp⟩ | ⟨r, hr, hrp⟩
    · exact ⟨r, hr, hrp⟩
    · exact ⟨r, last_rows_subset t r hr, hrp⟩
  obtain ⟨r, hr, hp'⟩ := hex
  have hmem : r ∈ t.filter (fun x => x.page = p) :=
    List.mem_filter.mpr ⟨hr, by simp [hp']⟩
  exact List.length_pos.mpr (List.ne_nil_of_mem hmem)

/-- Two-decimal rounding keeps a value of `[0, 100]` inside `[0, 100]`. -/
theorem round2_bounds (x : ℚ) (h0 : 0 ≤ x) (h1 : x ≤ 100) :
    0 ≤ round2 x ∧ round2 x ≤ 100 := by
  unfold round2
  constructor
  · apply div_nonneg _ (by norm_num)
    have hfl : (0 : ℤ) ≤ ⌊x * 100 + 1/2⌋ := Int.floor_nonneg.mpr (by positivity)
    exact_mod_cast hfl
  · rw [div_le_iff₀ (by norm_num : (0 : ℚ) < 100)]
    have hfl : ⌊x * 100 + 1/2⌋ ≤ ⌊(10000 : ℚ) + 1/2⌋ :=
      Int.floor_le_floor (by linarith)
    have hv : ⌊(10000 : ℚ) + 1/2⌋ = 10000 := by
      rw [add_comm]
      rw [show ((10000 : ℚ)) = ((10000 : ℤ) : ℚ) by norm_num]
      rw [Int.floor_add_int]
      norm_num
    rw [hv] at hfl
    calc ((⌊x * 100 + 1/2⌋ : ℤ) : ℚ) ≤ ((10000 : ℤ) : ℚ) := by exact_mod_cast hfl
      _ = 100 * 100 := by norm_num

/-- An exit rate is the rounding of a ratio lying in `[0, 100]`. -/
theorem exit_rate_bounds (t : Table) (p : String) (h : p ∈ page_index t) :
    0 ≤ round2 ((exit_count t p : ℚ) / (page_views t p : ℚ) * 100) ∧
    round2 ((exit_count t p : ℚ) / (page_views t p : ℚ) * 100) ≤ 100 := by
  have hv := page_index_views_pos t p h
  have he := exit_count_le t p
  have hvq : (0 : ℚ) < (page_views t p : ℚ) := by exact_mod_cast hv
  have heq : (exit_count t p : ℚ) ≤ (page_views t p : ℚ) := by exact_mod_cast he
  have h0 : 0 ≤ (exit_count t p : ℚ) / (page_views t p : ℚ) * 100 := by positivity
  have h1 : (exit_count t p : ℚ) / (page_views t p : ℚ) * 100 ≤ 100 := by
    rw [div_mul_eq_mul_div, div_le_iff₀ hvq]
    nlinarith
  exact round2_bounds _ h0 h1

/-- The single-record block that the visit generator produces from the
all-zero entropy stream at day 19999, hour 0. -/
def visitBlock : List Record :=
  [{ timestamp := 1727913600, date := 19999, hour := 0, user_id := "user_1",
     session_id := "session_19999_0_1000", page := "/home", time_on_page := 0,
     source := "Google", device := "Desktop", country := "United States",
     is_bounce := true, converted := false }]

/-! The claims. -/

/-- C1, counterexample: two calls of `generate_sample_data` with equal
arguments (`days = 1`) do not return identical tables when the generation
instants differ — the rows' timestamps embed the wall clock reading, here
one second apart. -/
theorem claim1_counterexample :
    generate_sample_data entropyCollide now0 1 rng0 ≠
      generate_sample_data entropyCollide (now0 + 1) 1 rng0 := by
  decide

/-- C1 (amended): for a fixed seed, day count and clock reading the
generator is deterministic — in particular the output is independent of the
state of the global random generator before the call, which the internal
`np.random.seed(42)` overwrites. -/
theorem claim1_deterministic_given_clock (e : Entropy) (now days : Nat)
    (s1 s2 : Rng) :
    generate_sample_data e now days s1 = generate_sample_data e now days s2 :=
  rfl

/-- C2, counterexample: a generated table in which two sessions collide on
the random session-id suffix carries rows with the same `session_id` but
different `user_id`, so the per-`session_id` invariant fails. -/
theorem claim2_counterexample :
    (generate_sample_data entropyCollide now0 1 rng0).map sessionsConsistent
      = some false := by
  decide

/-- C2 (amended): all rows generated for a single session share `user_id`,
`session_id`, `source`, `device`, `country` and `is_bounce`, and `is_bounce`
holds exactly when the session produced one row; distinct sessions, however,
may collide on `session_id`. -/
theorem claim2_session_rows_consistent (date hour : Nat) (s : Rng)
    (block : List Record) (s' : Rng)
    (h : make_visit date hour s = some (block, s')) :
    (∀ r1 ∈ block, ∀ r2 ∈ block,
      r1.user_id = r2.user_id ∧ r1.session_id = r2.session_id ∧
      r1.source = r2.source ∧ r1.device = r2.device ∧
      r1.country = r2.country ∧ r1.is_bounce = r2.is_bounce) ∧
    ∀ r ∈ block, r.is_bounce = decide (block.length = 1) := by
  obtain ⟨fp, uid, sid, src, dev, ctry, numPages, st, s0, hsp⟩ :=
    make_visit_destruct date hour s block s' h
  have hf := session_pages_fields fp uid sid src dev ctry _ st numPages 0 []
    false s0 block s' hsp
  have hl := session_pages_length fp uid sid src dev ctry _ st numPages 0 []
    false s0 block s' hsp
  constructor
  · intro r1 h1 r2 h2
    obtain ⟨a1, b1, c1, d1, e1, f1⟩ := hf r1 h1
    obtain ⟨a2, b2, c2, d2, e2, f2⟩ := hf r2 h2
    exact ⟨a1.trans a2.symm, b1.trans b2.symm, c1.trans c2.symm,
      d1.trans d2.symm, e1.trans e2.symm, f1.trans f2.symm⟩
  · intro r hr
    rw [(hf r hr).2.2.2.2.2, hl]

/-- C2, witness: the visit generated from the all-zero entropy stream is a
one-row bounce session satisfying the amended invariant. -/
theorem claim2_witness :
    make_visit 1727913600 0 (np_seed entropyZero 42)
      = some (visitBlock, ⟨entropyZero 42, 8⟩) ∧
    ((∀ r1 ∈ visitBlock, ∀ r2 ∈ visitBlock,
      r1.user_id = r2.user_id ∧ r1.session_id = r2.session_id ∧
      r1.source = r2.source ∧ r1.device = r2.device ∧
      r1.country = r2.country ∧ r1.is_bounce = r2.is_bounce) ∧
    ∀ r ∈ visitBlock, r.is_bounce = decide (visitBlock.length = 1)) :=
  ⟨rfl, claim2_session_rows_consistent 1727913600 0 (np_seed entropyZero 42)
    visitBlock ⟨entropyZero 42, 8⟩ rfl⟩

/-- C3, counterexample: a generated two-page session `/products → /signup`
whose conversion coin succeeds on the second page carries
`converted = false` on its first row and `converted = true` on its second,
so the claimed all-rows back-fill fails. -/
theorem claim3_counterexample :
    (generate_sample_data entropyConvert now0 1 rng0).map conversionBackfilled
      = some false := by
  decide

/-- C3 (amended): within the rows generated for one session the conversion
flag is monotone — once a row is converted, every later row of the session
is converted; rows before the converting page view keep `false`, so the
session-level flag is the OR over the rows. -/
theorem claim3_conversion_monotone (date hour : Nat) (s : Rng)
    (block : List Record) (s' : Rng)
    (h : make_visit date hour s = some (block, s')) :
    block.Pairwise (fun a b => a.converted = true → b.converted = true) := by
  obtain ⟨fp, uid, sid, src, dev, ctry, numPages, st, s0, hsp⟩ :=
    make_visit_destruct date hour s block s' h
  exact (session_pages_conv fp uid sid src dev ctry _ st numPages 0 [] false
    s0 block s' hsp).2

/-- C3, witness: the monotonicity holds of a concretely generated visit. -/
theorem claim3_witness :
    make_visit 1727913600 0 (np_seed entropyZero 42)
      = some (visitBlock, ⟨entropyZero 42, 8⟩) ∧
    visitBlock.Pairwise (fun a b => a.converted = true → b.converted = true) :=
  ⟨rfl, claim3_conversion_monotone 1727913600 0 (np_seed entropyZero 42)
    visitBlock ⟨entropyZero 42, 8⟩ rfl⟩

/-- C4: for every non-empty table the basic metrics satisfy
`pages_per_session × unique_sessions = total_pageviews` exactly, with
`pages_per_session = total row count / distinct session count`. -/
theorem claim4_pages_per_session_identity (t : Table) (h : t ≠ []) :
    (compute_basic_metrics t).pages_per_session *
      ((compute_basic_metrics t).unique_sessions : ℚ) =
      ((compute_basic_metrics t).total_pageviews : ℚ) := by
  have hsn : (session_ids t).length ≠ 0 := by
    intro hzero
    apply h
    have hnil : session_ids t = [] := List.length_eq_zero.mp hzero
    simp only [session_ids, List.dedup_eq_nil, List.map_eq_nil_iff] at hnil
    exact hnil
  simp only [compute_basic_metrics]
  rw [div_mul_cancel₀]
  exact Nat.cast_ne_zero.mpr hsn

/-- C4, witness: the identity holds of the demonstration table. -/
theorem claim4_witness :
    demoTable ≠ [] ∧
    (compute_basic_metrics demoTable).pages_per_session *
      ((compute_basic_metrics demoTable).unique_sessions : ℚ) =
      ((compute_basic_metrics demoTable).total_pageviews : ℚ) :=
  ⟨by decide, claim4_pages_per_session_identity demoTable (by decide)⟩

/-- C5: with the table unset every report returns without an exception,
emits the no-data notice, leaves the analyzer unchanged and returns no
summary value; for `traffic_over_time` this holds for every time unit. -/
theorem claim5_no_data_reports :
    basic_metrics ⟨none⟩ = (⟨none⟩, some noDataMsg, none) ∧
    analyze_traffic_sources ⟨none⟩ = (⟨none⟩, some noDataMsg, none) ∧
    popular_pages ⟨none⟩ = (⟨none⟩, some noDataMsg, none) ∧
    ∀ time_unit : String,
      traffic_over_time ⟨none⟩ time_unit = (⟨none⟩, some noDataMsg, none) :=
  ⟨rfl, rfl, rfl, fun _ => rfl⟩

/-- C6, counterexample: with only `/home` viewed, the source draws from the
five-entry truncation of the unviewed catalog, not from the full unviewed
set the claim describes — `/faq` is unviewed yet can never be drawn. -/
theorem claim6_counterexample :
    next_page_candidates ["/home"] ≠ next_page_candidates_claim ["/home"] ∧
    "/faq" ∈ next_page_candidates_claim ["/home"] ∧
    ¬ "/faq" ∈ next_page_candidates ["/home"] := by
  decide

/-- C6 (amended): for any subsequent page (some page already viewed) the
next-page choice applies the claimed `/products` (40%) and `/pricing` (30%)
`/signup` transitions, and otherwise draws uniformly over the first five
catalog pages not yet viewed, in catalog order; the full-catalog fallback
is unreachable for subsequent pages. -/
theorem claim6_next_page_truncated (viewed : List String) (s : Rng)
    (h : viewed ≠ []) : next_page viewed s = next_page_amended viewed s := by
  simp only [next_page, next_page_amended, next_page_candidates,
    next_page_candidates_amended, if_neg h]

/-- C6, witness: the amended description matches the source draw at a
concrete state. -/
theorem claim6_witness :
    (["/home"] : List String) ≠ [] ∧
    next_page ["/home"] rng0 = next_page_amended ["/home"] rng0 :=
  ⟨by decide, claim6_next_page_truncated ["/home"] rng0 (by decide)⟩

/-- C7: every page in the exit-rate table has at least one pageview (so no
zero denominator arises), its exit count never exceeds its pageview count,
and every reported exit-rate value lies in `[0, 100]`. -/
theorem claim7_exit_rates_bounded (t : Table) (p : String)
    (h : p ∈ page_index t) :
    1 ≤ page_views t p ∧ exit_count t p ≤ page_views t p ∧
    ∀ q : ℚ, (p, q) ∈ exit_rates_table t → 0 ≤ q ∧ q ≤ 100 := by
  refine ⟨page_index_views_pos t p h, exit_count_le t p, ?_⟩
  intro q hq
  simp only [exit_rates_table, List.mem_map, Prod.mk.injEq] at hq
  obtain ⟨p', hp', hpp, hqq⟩ := hq
  subst hpp
  rw [← hqq]
  exact exit_rate_bounds t p' hp'

/-- C7, witness: the bounds hold of the `/home` page of the demonstration
table. -/
theorem claim7_witness :
    "/home" ∈ page_index demoTable ∧
    (1 ≤ page_views demoTable "/home" ∧
     exit_count demoTable "/home" ≤ page_views demoTable "/home" ∧
     ∀ q : ℚ, ("/home", q) ∈ exit_rates_table demoTable → 0 ≤ q ∧ q ≤ 100) :=
  ⟨by decide, claim7_exit_rates_bounded demoTable "/home" (by decide)⟩

/-- C8, counterexample: a failed load on an analyzer that already holds a
table reports the failure but leaves the old table in place — the data
field does not hold `none` after the failed call, contrary to the claim. -/
theorem claim8_counterexample :
    (load_data ⟨some demoTable⟩ (Except.error "No such file")).2.data ≠ none ∧
    (load_data ⟨some demoTable⟩ (Except.error "No such file")).1 = false := by
  exact ⟨by decide, rfl⟩

/-- C8 (amended): a failed load reports the failure by returning `False`
and leaves the data field unchanged — in particular an analyzer whose table
was unset still holds no table. -/
theorem claim8_load_failure_keeps_state (st : Analyzer) (msg : String) :
    load_data st (Except.error msg) = (false, st) :=
  rfl

/-- C9: on a populated table `basic_metrics`, `analyze_traffic_sources`,
`popular_pages` and `traffic_over_time` for `day`/`hour` leave the analyzer
unchanged; only the `day_of_week` variant updates it, and its only change
is filling the derived `day_of_week` column, all other fields of every row
and the row count being preserved. -/
theorem claim9_reports_read_only (t : Table) :
    (basic_metrics ⟨some t⟩).1 = ⟨some t⟩ ∧
    (analyze_traffic_sources ⟨some t⟩).1 = ⟨some t⟩ ∧
    (popular_pages ⟨some t⟩).1 = ⟨some t⟩ ∧
    (traffic_over_time ⟨some t⟩ "day").1 = ⟨some t⟩ ∧
    (traffic_over_time ⟨some t⟩ "hour").1 = ⟨some t⟩ ∧
    (traffic_over_time ⟨some t⟩ "day_of_week").1 =
      ⟨some (t.map add_day_of_week)⟩ ∧
    (t.map add_day_of_week).length = t.length ∧
    ∀ r ∈ t,
      (add_day_of_week r).timestamp = r.timestamp ∧
      (add_day_of_week r).date = r.date ∧
      (add_day_of_week r).hour = r.hour ∧
      (add_day_of_week r).user_id = r.user_id ∧
      (add_day_of_week r).session_id = r.session_id ∧
      (add_day_of_week r).page = r.page ∧
      (add_day_of_week r).time_on_page = r.time_on_page ∧
      (add_day_of_week r).source = r.source ∧
      (add_day_of_week r).device = r.device ∧
      (add_day_of_week r).country = r.country ∧
      (add_day_of_week r).is_bounce = r.is_bounce ∧
      (add_day_of_week r).converted = r.converted ∧
      (add_day_of_week r).day_of_week = some (dayName r.timestamp) :=
  ⟨rfl, rfl, rfl, rfl, rfl, rfl, List.length_map .., fun _ _ =>
    ⟨rfl, rfl, rfl, rfl, rfl, rfl, rfl, rfl, rfl, rfl, rfl, rfl, rfl⟩⟩

/-- C10: with some page viewed and at most five viewed (the invariant the
session-length draw over `{1..6}` maintains), the unviewed catalog set is
non-empty, the source's candidate list is its five-entry truncation and is
never empty, and the whole generator never fails on an empty draw. -/
theorem claim10_candidates_never_empty (e : Entropy) (now days : Nat)
    (s : Rng) (viewed : List String) (h1 : viewed ≠ [])
    (h2 : viewed.length ≤ 5) :
    pages.filter (fun p => ¬ p ∈ viewed) ≠ [] ∧
    next_page_candidates viewed
      = (pages.filter (fun p => ¬ p ∈ viewed)).take 5 ∧
    (next_page_candidates viewed).length = 5 ∧
    (generate_sample_data e now days s).isSome = true := by
  refine ⟨?_, by simp [next_page_candidates, if_neg h1],
    candidates_length viewed h1 h2, ?_⟩
  · intro hnil
    have hge := filter_unviewed_ge viewed
    have hp : pages.length = 10 := rfl
    rw [hnil] at hge
    simp only [List.length_nil] at hge
    omega
  · simp only [generate_sample_data]
    rw [isSome_map]
    exact day_loop_isSome _ _

/-- C10, witness: the candidate-list facts hold with `/home` viewed, and a
concrete generation run succeeds. -/
theorem claim10_witness :
    ((["/home"] : List String) ≠ [] ∧ (["/home"] : List String).length ≤ 5) ∧
    (pages.filter (fun p => ¬ p ∈ (["/home"] : List String)) ≠ [] ∧
     next_page_candidates ["/home"]
       = (pages.filter (fun p => ¬ p ∈ (["/home"] : List String))).take 5 ∧
     (next_page_candidates ["/home"]).length = 5 ∧
     (generate_sample_data entropyZero now0 1 rng0).isSome = true) :=
  ⟨⟨by decide, by decide⟩, claim10_candidates_never_empty entropyZero now0 1
    rng0 ["/home"] (by decide) (by decide)⟩

end WebTraffic
